import Mathlib

/-!
Shallow embedding of the Sophos firewall Terraform provider's
request/response translation layer: the per-resource-kind clients
(iphost, iphostgroup, machost, firewallrule) and the resource-layer
normalization code, together with theorems about the specified
behaviour (authentication gate, per-kind status-code gate, read scan
and not-found, variant field suppression, dedup/sort normalization,
transaction-id clearing, MAC validation, string-template XML building).

Each Go client parses the XML response into an anonymous struct with a
login status, an optional per-kind status code/message and an optional
error code/message, then applies a chain of checks.  We embed the decoded
response as a record and each check chain as a total function from the
record to `Except String`, mirroring the Go control flow and the exact
error message formats.
-/

namespace Sophos

/-- Decoded response envelope for Set (add/update) operations: the Go code
parses `Login/status`, the per-resource-kind `Status` element (code
attribute and message) and the `Error` element (code attribute and
message). -/
structure SetResponse where
  loginStatus : String
  statusCode : String
  statusMessage : String
  errorCode : String
  errorMessage : String
deriving DecidableEq

/-- IPHost entity, from internal/iphost/types.go: the per-variant fields
plus the host-group reference list (a nullable list, mirroring the Go
pointer `*HostGroupList`). -/
structure IPHost where
  name : String
  description : String
  ipFamily : String
  hostType : String
  ipAddress : String
  subnet : String
  startIPAddress : String
  endIPAddress : String
  transactionID : String
  listOfIPAddresses : String
  hostGroupList : Option (List String)
deriving DecidableEq

/-- Decoded Get response for IPHost reads: login status, the (possibly
multi-element) IPHost collection, the top-level Status element and the
Error element, as parsed by ReadIPHost. -/
structure IPHostReadResponse where
  loginStatus : String
  ipHosts : List IPHost
  statusCode : String
  statusMessage : String
  errorCode : String
  errorMessage : String
deriving DecidableEq

/-- The exact login success literal every operation compares against. -/
def authSuccess : String := "Authentication Successful"

/-- CreateIPHost response handling (iphost client): login gate, then
Error element gate, then the per-kind status code must be "200". -/
def createIPHostResult (r : SetResponse) : Except String Unit :=
  if r.loginStatus ≠ authSuccess then
    .error ("authentication failed: " ++ r.loginStatus)
  else if r.errorCode ≠ "" then
    .error ("Sophos API error: " ++ r.errorCode ++ " - " ++ r.errorMessage)
  else if r.statusCode ≠ "200" then
    .error ("operation failed: " ++ r.statusMessage)
  else
    .ok ()

/-- UpdateIPHost response handling (iphost client): login gate and Error
element gate only; the parsed per-kind status code is never consulted. -/
def updateIPHostResult (r : SetResponse) : Except String Unit :=
  if r.loginStatus ≠ authSuccess then
    .error ("authentication failed for update: " ++ r.loginStatus)
  else if r.errorCode ≠ "" then
    .error ("Sophos API error during update: " ++ r.errorCode ++ " - " ++ r.errorMessage)
  else
    .ok ()

/-- DeleteIPHost response handling (iphost client): login gate and Error
element gate; the Remove response has no per-kind status block check. -/
def deleteIPHostResult (r : SetResponse) : Except String Unit :=
  if r.loginStatus ≠ authSuccess then
    .error ("authentication failed: " ++ r.loginStatus)
  else if r.errorCode ≠ "" then
    .error ("Sophos API error: " ++ r.errorCode ++ " - " ++ r.errorMessage)
  else
    .ok ()

/-- The variant-based field suppression switch applied by ReadIPHost to
the matched host (the Go `switch targetIPHost.HostType`): fields not
belonging to the active host type are reset to the empty string; an
unrecognized host type leaves all fields untouched. -/
def normalizeIPHostVariant (h : IPHost) : IPHost :=
  if h.hostType = "IP" then
    { h with listOfIPAddresses := "", startIPAddress := "", endIPAddress := "", subnet := "" }
  else if h.hostType = "Network" then
    { h with startIPAddress := "", endIPAddress := "", listOfIPAddresses := "" }
  else if h.hostType = "IPRange" then
    { h with ipAddress := "", subnet := "", listOfIPAddresses := "" }
  else if h.hostType = "IPList" then
    { h with ipAddress := "", subnet := "", startIPAddress := "", endIPAddress := "" }
  else if h.hostType = "System Host" then
    { h with ipAddress := "", subnet := "", startIPAddress := "", endIPAddress := "", listOfIPAddresses := "" }
  else
    h

/-- What the Go map-based deduplication guarantees about its output: the
result has no duplicates and exactly the members of the input.  The Go
code iterates a `map[string]bool`, whose iteration order is unspecified,
so the output order is not determined; read functions below therefore
take the dedup procedure as a parameter assumed to satisfy this. -/
def IsDedupOf (out inp : List String) : Prop :=
  out.Nodup ∧ (∀ a ∈ inp, a ∈ out) ∧ (∀ a ∈ out, a ∈ inp)

instance (out inp : List String) : Decidable (IsDedupOf out inp) := by
  unfold IsDedupOf
  exact inferInstance

/-- First-seen-order deduplication, accumulating the already-seen keys;
this is the loop used by the resource-layer MACLIST read (part_001) and
one admissible order for the map-based dedups. -/
def dedupFirstAux (seen : List String) : List String → List String
  | [] => []
  | x :: xs => if x ∈ seen then dedupFirstAux seen xs else x :: dedupFirstAux (x :: seen) xs

/-- Deduplicate keeping the first occurrence of each element. -/
def dedupKeepFirst (l : List String) : List String :=
  dedupFirstAux [] l

/-- ReadIPHost (iphost client): login gate, Error gate, then scan the
returned collection for the exact requested name; on a match, replace the
host-group list by its deduplication (or the empty list when absent or
empty) and apply the variant field suppression; with no match, return
an explicit not-found (`none`) with no error. -/
def readIPHostResult (dedup : List String → List String)
    (r : IPHostReadResponse) (name : String) : Except String (Option IPHost) :=
  if r.loginStatus ≠ authSuccess then
    .error ("authentication failed: " ++ r.loginStatus)
  else if r.errorCode ≠ "" then
    .error ("Sophos API error: " ++ r.errorCode ++ " - " ++ r.errorMessage)
  else
    match r.ipHosts.find? (fun h => h.name = name) with
    | none => .ok none
    | some h =>
        let groups : List String :=
          match h.hostGroupList with
          | some gs => if gs.isEmpty then [] else dedup gs
          | none => []
        .ok (some (normalizeIPHostVariant { h with hostGroupList := some groups }))

/-- IPHostGroup entity, from internal/iphostgroup/types.go: name,
description, IP family, nullable host-name list and transaction id. -/
structure IPHostGroup where
  name : String
  description : String
  ipFamily : String
  hostList : Option (List String)
  transactionID : String
deriving DecidableEq

/-- Decoded Get response for IPHostGroup reads. -/
structure IPHostGroupReadResponse where
  loginStatus : String
  ipHostGroups : List IPHostGroup
  statusCode : String
  statusMessage : String
  errorCode : String
  errorMessage : String
deriving DecidableEq

/-- CreateIPHostGroup response handling: login gate, Error gate, then the
per-kind status code must be "200". -/
def createIPHostGroupResult (r : SetResponse) : Except String Unit :=
  if r.loginStatus ≠ authSuccess then
    .error ("authentication failed: " ++ r.loginStatus)
  else if r.errorCode ≠ "" then
    .error ("Sophos API error: " ++ r.errorCode ++ " - " ++ r.errorMessage)
  else if r.statusCode ≠ "200" then
    .error ("operation failed: " ++ r.statusMessage)
  else
    .ok ()

/-- UpdateIPHostGroup response handling: login gate and Error gate only;
the per-kind status code is parsed but never consulted. -/
def updateIPHostGroupResult (r : SetResponse) : Except String Unit :=
  if r.loginStatus ≠ authSuccess then
    .error ("authentication failed for update: " ++ r.loginStatus)
  else if r.errorCode ≠ "" then
    .error ("Sophos API error during update: " ++ r.errorCode ++ " - " ++ r.errorMessage)
  else
    .ok ()

/-- DeleteIPHostGroup response handling: login gate and Error gate. -/
def deleteIPHostGroupResult (r : SetResponse) : Except String Unit :=
  if r.loginStatus ≠ authSuccess then
    .error ("authentication failed: " ++ r.loginStatus)
  else if r.errorCode ≠ "" then
    .error ("Sophos API error: " ++ r.errorCode ++ " - " ++ r.errorMessage)
  else
    .ok ()

/-- ReadIPHostGroup (iphostgroup client): login gate, Error gate, scan for
the exact requested name, then deduplicate the host list (map-based, order
unspecified, hence the parameter) or initialize it to the empty list. -/
def readIPHostGroupResult (dedup : List String → List String)
    (r : IPHostGroupReadResponse) (name : String) : Except String (Option IPHostGroup) :=
  if r.loginStatus ≠ authSuccess then
    .error ("authentication failed: " ++ r.loginStatus)
  else if r.errorCode ≠ "" then
    .error ("Sophos API error: " ++ r.errorCode ++ " - " ++ r.errorMessage)
  else
    match r.ipHostGroups.find? (fun g => g.name = name) with
    | none => .ok none
    | some g =>
        let hosts : List String :=
          match g.hostList with
          | some hs => if hs.isEmpty then [] else dedup hs
          | none => []
        .ok (some { g with hostList := some hosts })

/-- MACHost entity, from internal/machost/types.go. -/
structure MACHost where
  name : String
  description : String
  type : String
  macAddress : String
  listOfMACAddresses : List String
  transactionID : String
deriving DecidableEq

/-- One MACHost element of a decoded Get response, mirroring the inline
struct in ReadMACHost (the MACList element wraps the MACAddress list). -/
structure MACHostEntry where
  name : String
  description : String
  type : String
  macAddress : String
  macList : List String
  transactionID : String
deriving DecidableEq

/-- Decoded Get response for MACHost reads. -/
structure MACHostReadResponse where
  loginStatus : String
  macHosts : List MACHostEntry
  statusCode : String
  statusMessage : String
  errorCode : String
  errorMessage : String
deriving DecidableEq

/-- CreateMACHost response handling (machost client): login gate and
Error gate only; the parsed top-level Status code is never checked. -/
def createMACHostResult (r : SetResponse) : Except String Unit :=
  if r.loginStatus ≠ authSuccess then
    .error ("authentication failed: " ++ r.loginStatus)
  else if r.errorCode ≠ "" then
    .error ("operation failed: " ++ r.errorMessage)
  else
    .ok ()

/-- UpdateMACHost response handling (machost client): identical check
chain to CreateMACHost; no status-code check. -/
def updateMACHostResult (r : SetResponse) : Except String Unit :=
  if r.loginStatus ≠ authSuccess then
    .error ("authentication failed: " ++ r.loginStatus)
  else if r.errorCode ≠ "" then
    .error ("operation failed: " ++ r.errorMessage)
  else
    .ok ()

/-- DeleteMACHost response handling: login gate and Error gate. -/
def deleteMACHostResult (r : SetResponse) : Except String Unit :=
  if r.loginStatus ≠ authSuccess then
    .error ("authentication failed: " ++ r.loginStatus)
  else if r.errorCode ≠ "" then
    .error ("Sophos API error: " ++ r.errorCode ++ " - " ++ r.errorMessage)
  else
    .ok ()

/-- ReadMACHost (machost client): login gate, Error gate, scan for the
exact requested name; the returned entity takes its MACAddress field only
for Type "MACAddress" and its address list only for Type "MACLIST" (each
other field stays at its zero value).  No deduplication happens here. -/
def readMACHostResult (r : MACHostReadResponse) (name : String) :
    Except String (Option MACHost) :=
  if r.loginStatus ≠ authSuccess then
    .error ("authentication failed: " ++ r.loginStatus)
  else if r.errorCode ≠ "" then
    .error ("Sophos API error: " ++ r.errorCode ++ " - " ++ r.errorMessage)
  else
    match r.macHosts.find? (fun h => h.name = name) with
    | none => .ok none
    | some h =>
        .ok (some
          { name := h.name
            description := h.description
            type := h.type
            macAddress := if h.type = "MACAddress" then h.macAddress else ""
            listOfMACAddresses := if h.type = "MACLIST" then h.macList else []
            transactionID := h.transactionID })

/-- Position reference of a firewall rule (After/Before), from
internal/firewallrule/types.go. -/
structure RulePosition where
  name : String
deriving DecidableEq

/-- Network policy block of a firewall rule, from
internal/firewallrule/types.go (scalar settings plus the four name-set
lists; nullable lists mirror the Go pointers). -/
structure NetworkPolicy where
  action : String
  logTraffic : String
  skipLocalDestined : String
  schedule : String
  sourceZones : Option (List String)
  destinationZones : Option (List String)
  sourceNetworks : Option (List String)
  destinationNetworks : Option (List String)
  dscpMarking : String
  webFilter : String
  webCategoryBaseQoSPolicy : String
  blockQuickQuic : String
  scanVirus : String
  zeroDayProtection : String
  proxyMode : String
  decryptHTTPS : String
  applicationControl : String
  applicationBaseQoSPolicy : String
  intrusionPrevention : String
  trafficShappingPolicy : String
  scanSMTP : String
  scanSMTPS : String
  scanIMAP : String
  scanIMAPS : String
  scanPOP3 : String
  scanPOP3S : String
  scanFTP : String
  sourceSecurityHeartbeat : String
  minimumSourceHBPermitted : String
  destSecurityHeartbeat : String
  minimumDestinationHBPermitted : String
deriving DecidableEq

/-- FirewallRule entity, from internal/firewallrule/types.go. -/
structure FirewallRule where
  name : String
  description : String
  ipFamily : String
  status : String
  position : String
  policyType : String
  after : Option RulePosition
  before : Option RulePosition
  networkPolicy : Option NetworkPolicy
  transactionID : String
deriving DecidableEq

/-- Decoded Get response for FirewallRule reads. -/
structure FirewallRuleReadResponse where
  loginStatus : String
  firewallRules : List FirewallRule
  statusCode : String
  statusMessage : String
  errorCode : String
  errorMessage : String
deriving DecidableEq

/-- createFirewallRulesBulk response handling (used by
CreateFirewallRule): login gate, Error gate, then the per-kind status
code must be "200". -/
def createFirewallRulesBulkResult (r : SetResponse) : Except String Unit :=
  if r.loginStatus ≠ authSuccess then
    .error ("authentication failed: " ++ r.loginStatus)
  else if r.errorCode ≠ "" then
    .error ("Sophos API error: " ++ r.errorCode ++ " - " ++ r.errorMessage)
  else if r.statusCode ≠ "200" then
    .error ("operation failed: " ++ r.statusMessage)
  else
    .ok ()

/-- UpdateFirewallRule response handling: login gate and Error gate only;
the parsed per-kind status code is never consulted. -/
def updateFirewallRuleResult (r : SetResponse) : Except String Unit :=
  if r.loginStatus ≠ authSuccess then
    .error ("authentication failed for update: " ++ r.loginStatus)
  else if r.errorCode ≠ "" then
    .error ("Sophos API error during update: " ++ r.errorCode ++ " - " ++ r.errorMessage)
  else
    .ok ()

/-- DeleteFirewallRule response handling: login gate and Error gate. -/
def deleteFirewallRuleResult (r : SetResponse) : Except String Unit :=
  if r.loginStatus ≠ authSuccess then
    .error ("authentication failed: " ++ r.loginStatus)
  else if r.errorCode ≠ "" then
    .error ("Sophos API error: " ++ r.errorCode ++ " - " ++ r.errorMessage)
  else
    .ok ()

/-- ReadFirewallRule: login gate, Error gate, scan for the exact
requested name; the matched rule is returned unchanged, no match yields
an explicit not-found with no error. -/
def readFirewallRuleResult (r : FirewallRuleReadResponse) (name : String) :
    Except String (Option FirewallRule) :=
  if r.loginStatus ≠ authSuccess then
    .error ("authentication failed: " ++ r.loginStatus)
  else if r.errorCode ≠ "" then
    .error ("Sophos API error: " ++ r.errorCode ++ " - " ++ r.errorMessage)
  else
    match r.firewallRules.find? (fun rl => rl.name = name) with
    | none => .ok none
    | some rl => .ok (some rl)

/-- The IPHost entity as serialized by UpdateIPHost: the client embeds
the entity (by pointer) in the Set operation="update" request and assigns
an empty TransactionID before marshaling, so the marshaled entity always
carries an empty transaction id. -/
def updateIPHostWireHost (h : IPHost) : IPHost :=
  { h with transactionID := "" }

/-- The IPHostGroup entity as serialized by UpdateIPHostGroup: the
transaction id is assigned empty before marshaling. -/
def updateIPHostGroupWireGroup (g : IPHostGroup) : IPHostGroup :=
  { g with transactionID := "" }

/-- The FirewallRule entity as serialized by UpdateFirewallRule: the
transaction id is assigned empty before marshaling. -/
def updateFirewallRuleWireRule (rl : FirewallRule) : FirewallRule :=
  { rl with transactionID := "" }

/-- Uppercase a string character by character (Go strings.ToUpper; the
strings compared in this code are ASCII, where Char.toUpper agrees with
Go). -/
def asciiToUpper (s : String) : String :=
  String.mk (s.toList.map Char.toUpper)

/-- ASCII whitespace, the characters Go strings.TrimSpace removes from
the values appearing here. -/
def isSpaceChar (c : Char) : Bool :=
  c = ' ' || c = '\t' || c = '\n' || c = '\r'

/-- Trim leading and trailing whitespace (Go strings.TrimSpace on the
ASCII inputs of this code). -/
def trimSpaces (s : String) : String :=
  String.mk (((s.toList.dropWhile isSpaceChar).reverse.dropWhile isSpaceChar).reverse)

/-- Split a character list at every occurrence of the separator. -/
def splitOnCharAux (sep : Char) : List Char → List Char → List String
  | [], acc => [String.mk acc.reverse]
  | c :: cs, acc =>
      if c = sep then String.mk acc.reverse :: splitOnCharAux sep cs []
      else splitOnCharAux sep cs (c :: acc)

/-- Split a string at every occurrence of the separator character (Go
strings.Split with a one-character separator). -/
def splitOnChar (sep : Char) (s : String) : List String :=
  splitOnCharAux sep s.toList []

/-- ipHostGroupResource.Read state mapping for the host list (part_000):
a non-null non-empty client list is copied and sorted alphabetically
(Go slices.Sort); otherwise the state list is initialized empty.  Any
provably correct sort of strings computes the same list as Go's
slices.Sort, since the order is total and antisymmetric. -/
def ipHostGroupStateHosts (g : IPHostGroup) : List String :=
  match g.hostList with
  | some hs => if hs.isEmpty then [] else List.insertionSort (· ≤ ·) hs
  | none => []

/-- macHostResource.Read state mapping of the list_of_mac_addresses
attribute in the part_001 revision: the type comparison is
case-insensitive; for MACLIST a non-empty client list is deduplicated
keeping first occurrences and comma-joined, an empty one maps to "";
for MACADDRESS the attribute is null; any other type leaves the prior
state value in place. -/
def macHostReadStateMACList1 (prior : Option String) (m : MACHost) : Option String :=
  let typeUpper := asciiToUpper m.type
  if typeUpper = "MACADDRESS" then none
  else if typeUpper = "MACLIST" then
    if ¬ m.listOfMACAddresses.isEmpty then
      some (String.intercalate "," (dedupKeepFirst m.listOfMACAddresses))
    else some ""
  else prior

/-- macHostResource.Read state mapping of the list_of_mac_addresses
attribute in the part_002 revision: exact-case type comparison; for
MACLIST the client list is comma-joined unchanged (no deduplication);
for MACAddress and for unexpected types the attribute is null. -/
def macHostReadStateMACList2 (m : MACHost) : Option String :=
  if m.type = "MACAddress" then none
  else if m.type = "MACLIST" then
    some (if ¬ m.listOfMACAddresses.isEmpty then
      String.intercalate "," m.listOfMACAddresses
    else "")
  else none

/-- Hex digit as accepted by the character class [0-9A-Fa-f]. -/
def isHexDigitChar (c : Char) : Bool :=
  c.isDigit || ('a' ≤ c && c ≤ 'f') || ('A' ≤ c && c ≤ 'F')

/-- isValidMACAddress (part_002): matches the regular expression
([0-9A-Fa-f]\x7b2\x7d[:-])\x7b5\x7d([0-9A-Fa-f]\x7b2\x7d) anchored on
both ends, i.e. exactly 17 characters, a colon or hyphen at positions
2, 5, 8, 11, 14 and hex digits everywhere else. -/
def isValidMACAddress (s : String) : Bool :=
  let cs := s.toList
  cs.length = 17 &&
    (List.range 17).all fun i =>
      let c := cs.getD i ' '
      if i % 3 = 2 then c = ':' || c = '-' else isHexDigitChar c

/-- parseMACList (part_002): split the comma-separated string, trim each
part, skip empties and deduplicate keeping first occurrences. -/
def parseMACList (s : String) : List String :=
  if s = "" then []
  else dedupKeepFirst (((splitOnChar ',' s).map trimSpaces).filter (fun p => p ≠ ""))

/-- The Terraform plan for a MAC host as read by the resource layer:
optional attributes are nullable. -/
structure MacPlan where
  name : String
  description : Option String
  type : String
  macAddress : Option String
  listOfMACAddresses : Option String
deriving DecidableEq

/-- The pre-network portion of macHostResource.Create (part_002): type
normalization, required-field checks and MAC address format validation;
on success, the MACHost entity handed to the network client.  A
validation failure is a diagnostic raised before any network call. -/
def macHostCreateGate (plan : MacPlan) : Except String MACHost :=
  let hostType := asciiToUpper plan.type
  let base : MACHost :=
    { name := plan.name, description := plan.description.getD "", type := ""
      macAddress := "", listOfMACAddresses := [], transactionID := "" }
  if hostType = "MACADDRESS" then
    match plan.macAddress with
    | some macAddr =>
        if ¬ isValidMACAddress macAddr then
          .error ("MAC address " ++ macAddr ++ " is not in a valid format. Use format XX:XX:XX:XX:XX:XX")
        else
          .ok { base with type := "MACAddress", macAddress := macAddr }
    | none => .error "MACAddress type requires a MAC address"
  else if hostType = "MACLIST" then
    match plan.listOfMACAddresses with
    | some s =>
        if s = "" then .ok { base with type := "MACLIST" }
        else
          let macs := parseMACList s
          match macs.find? (fun m => ¬ isValidMACAddress m) with
          | some bad =>
              .error ("MAC address " ++ bad ++ " is not in a valid format. Use format XX:XX:XX:XX:XX:XX")
          | none => .ok { base with type := "MACLIST", listOfMACAddresses := macs }
    | none => .ok { base with type := "MACLIST" }
  else
    .error "Type must be either MACAddress or MACLIST"

/-- The pre-network portion of macHostResource.Update (part_002): same
shape as the Create gate but with no call to isValidMACAddress anywhere —
neither the single MACAddress nor the MACLIST entries are validated
before the network request is issued. -/
def macHostUpdateGate (plan : MacPlan) : Except String MACHost :=
  let hostType := asciiToUpper plan.type
  let base : MACHost :=
    { name := plan.name, description := plan.description.getD "", type := ""
      macAddress := "", listOfMACAddresses := [], transactionID := "" }
  if hostType = "MACADDRESS" then
    match plan.macAddress with
    | some macAddr => .ok { base with type := "MACAddress", macAddress := macAddr }
    | none => .error "MACAddress type requires a MAC address"
  else if hostType = "MACLIST" then
    match plan.listOfMACAddresses with
    | some s => .ok { base with type := "MACLIST", listOfMACAddresses := parseMACList s }
    | none => .ok { base with type := "MACLIST" }
  else
    .error "Type must be either MACAddress or MACLIST"

/-- The Get request body built by ReadIPHost (string template with the
username, password and requested name interpolated verbatim). -/
def readIPHostRequestBody (username password name : String) : String :=
  "<Request>\n\t<Login>\n\t\t<Username>" ++ username ++ "</Username>\n\t\t<Password>" ++
    password ++ "</Password>\n\t</Login>\n\t<Get> \n\t\t<IPHost>\n\t\t\t<Name>" ++ name ++
    "</Name>\n\t\t</IPHost>\n\t</Get>\n</Request>"

/-- The Set operation="add" request body built by CreateMACHost (string
template; name, description, type and the MAC address fields are
interpolated verbatim, with the type-specific block appended). -/
def createMACHostRequestBody (username password : String) (m : MACHost) : String :=
  "<Request>\n    <Login>\n        <Username>" ++ username ++
    "</Username>\n        <Password>" ++ password ++
    "</Password>\n    </Login>\n    <Set operation=\"add\">\n        <MACHost>\n            <Name>" ++
    m.name ++ "</Name>\n            <Description>" ++ m.description ++
    "</Description>\n            <Type>" ++ m.type ++ "</Type>" ++
    (if m.type = "MACAddress" then
      "\n<MACAddress>" ++ m.macAddress ++ "</MACAddress>"
    else if m.type = "MACLIST" then
      "\n<MACList>" ++
        String.join (m.listOfMACAddresses.map
          (fun mac => "\n<MACAddress>" ++ mac ++ "</MACAddress>")) ++
        "\n</MACList>"
    else "") ++
    "\n        </MACHost>\n        </Set>\n    </Request>"

/-- The Set operation="update" request body built by UpdateMACHost
(string template; note the lowercase element for the name field).  The
entity's transaction id is never referenced by the template. -/
def updateMACHostRequestBody (username password : String) (m : MACHost) : String :=
  "<Request>\n    <Login>\n        <Username>" ++ username ++
    "</Username>\n        <Password>" ++ password ++
    "</Password>\n    </Login>\n    <Set operation=\"update\">\n        <MACHost>\n            <n>" ++
    m.name ++ "</n>\n            <Description>" ++ m.description ++
    "</Description>\n            <Type>" ++ m.type ++ "</Type>" ++
    (if m.type = "MACAddress" then
      "\n            <MACAddress>" ++ m.macAddress ++ "</MACAddress>"
    else if m.type = "MACLIST" then
      "\n            <MACList>" ++
        String.join (m.listOfMACAddresses.map
          (fun mac => "\n                <MACAddress>" ++ mac ++ "</MACAddress>")) ++
        "\n            </MACList>"
    else "") ++
    "\n        </MACHost>\n    </Set>\n</Request>"

/-- Characters allowed inside an element name by the well-formedness
checker below. -/
def isNameChar (c : Char) : Bool :=
  c.isAlphanum || c = '_' || c = '-' || c = '.' || c = ':'

/-- Scan the inside of a start tag up to the closing angle bracket,
reporting whether the tag is self-closing; fails on a stray opening
angle bracket or end of input. -/
def tagTail : List Char → Option (Bool × List Char)
  | [] => none
  | '>' :: rest => some (false, rest)
  | '<' :: _ => none
  | '/' :: '>' :: rest => some (true, rest)
  | _ :: rest => tagTail rest

/-- Fuel-indexed scanner for a simple well-formedness check of an XML
fragment: element names must be nonempty runs of name characters, every
start tag must be matched by the corresponding end tag in LIFO order,
and text may not contain a stray opening angle bracket that does not
begin a valid tag. -/
def xmlScanAux : Nat → List Char → List (List Char) → Bool
  | 0, _, _ => false
  | _ + 1, [], stack => stack.isEmpty
  | fuel + 1, '<' :: rest, stack =>
      match rest with
      | '/' :: rest2 =>
          let nm := rest2.takeWhile isNameChar
          let rest3 := rest2.dropWhile isNameChar
          if nm.isEmpty then false
          else
            match rest3, stack with
            | '>' :: rest4, top :: stack2 =>
                if top = nm then xmlScanAux fuel rest4 stack2 else false
            | _, _ => false
      | c :: _ =>
          if c.isAlpha then
            let nm := rest.takeWhile isNameChar
            let rest3 := rest.dropWhile isNameChar
            match tagTail rest3 with
            | some (selfClose, rest4) =>
                xmlScanAux fuel rest4 (if selfClose then stack else nm :: stack)
            | none => false
          else false
      | [] => false
  | fuel + 1, _ :: rest, stack => xmlScanAux fuel rest stack

/-- A document is well formed when the scanner consumes it completely
with an empty element stack. -/
def xmlWellFormed (s : String) : Bool :=
  xmlScanAux (s.length + 1) s.toList []

/-- Naive check that the pattern occurs contiguously in the text. -/
def listContainsInfix (pat text : List Char) : Bool :=
  (List.range (text.length + 1)).any fun i => (text.drop i).take pat.length = pat

/-- String-level contiguous-substring check used to witness verbatim
interpolation of unescaped input into a request body. -/
def strContainsSub (pat text : String) : Bool :=
  listContainsInfix pat.toList text.toList

deriving instance DecidableEq for Except

/-- Membership in the first-seen dedup: exactly the input elements not
already seen. -/
theorem mem_dedupFirstAux {a : String} : ∀ {seen l : List String},
    a ∈ dedupFirstAux seen l ↔ a ∈ l ∧ a ∉ seen := by
  intro seen l
  induction l generalizing seen with
  | nil => simp [dedupFirstAux]
  | cons x xs ih =>
    simp only [dedupFirstAux]
    by_cases hx : x ∈ seen
    · rw [if_pos hx, ih]
      constructor
      · rintro ⟨h1, h2⟩
        exact ⟨List.mem_cons_of_mem _ h1, h2⟩
      · rintro ⟨h1, h2⟩
        rcases List.mem_cons.mp h1 with rfl | h1
        · exact absurd hx h2
        · exact ⟨h1, h2⟩
    · rw [if_neg hx]
      constructor
      · intro hmem
        rcases List.mem_cons.mp hmem with rfl | h1
        · exact ⟨List.mem_cons_self _ _, hx⟩
        · rw [ih] at h1
          exact ⟨List.mem_cons_of_mem _ h1.1, fun hs => h1.2 (List.mem_cons_of_mem _ hs)⟩
      · rintro ⟨h1, h2⟩
        rcases List.mem_cons.mp h1 with rfl | h1
        · exact List.mem_cons_self _ _
        · by_cases hax : a = x
          · subst hax
            exact List.mem_cons_self _ _
          · exact List.mem_cons_of_mem _
              (ih.mpr ⟨h1, fun hs => (List.mem_cons.mp hs).elim hax h2⟩)

/-- The first-seen dedup never emits a duplicate. -/
theorem nodup_dedupFirstAux : ∀ (seen l : List String), (dedupFirstAux seen l).Nodup := by
  intro seen l
  induction l generalizing seen with
  | nil => simp [dedupFirstAux]
  | cons x xs ih =>
    simp only [dedupFirstAux]
    by_cases hx : x ∈ seen
    · rw [if_pos hx]
      exact ih _
    · rw [if_neg hx]
      refine List.nodup_cons.mpr ⟨?_, ih _⟩
      intro hmem
      exact (mem_dedupFirstAux.mp hmem).2 (List.mem_cons_self _ _)

/-- The first-seen dedup preserves the input order (it is a sublist). -/
theorem sublist_dedupFirstAux : ∀ (seen l : List String), List.Sublist (dedupFirstAux seen l) l := by
  intro seen l
  induction l generalizing seen with
  | nil => simp [dedupFirstAux]
  | cons x xs ih =>
    simp only [dedupFirstAux]
    by_cases hx : x ∈ seen
    · rw [if_pos hx]
      exact List.Sublist.cons _ (ih _)
    · rw [if_neg hx]
      exact List.Sublist.cons₂ _ (ih _)

/-- Membership in the first-seen dedup coincides with the input. -/
theorem mem_dedupKeepFirst {a : String} {l : List String} :
    a ∈ dedupKeepFirst l ↔ a ∈ l := by
  simp [dedupKeepFirst, mem_dedupFirstAux]

/-- The first-seen dedup is one admissible output of the map-based
deduplication. -/
theorem isDedupOf_dedupKeepFirst (l : List String) : IsDedupOf (dedupKeepFirst l) l :=
  ⟨nodup_dedupFirstAux [] l,
   fun _ ha => mem_dedupKeepFirst.mpr ha,
   fun _ ha => mem_dedupKeepFirst.mp ha⟩

/-- Field suppression facts about the normalization switch, per variant:
every field not belonging to the active host type is emptied. -/
theorem normalizeIPHostVariant_fields (x : IPHost) :
    ((normalizeIPHostVariant x).hostType = "IP" →
      (normalizeIPHostVariant x).listOfIPAddresses = "" ∧
      (normalizeIPHostVariant x).startIPAddress = "" ∧
      (normalizeIPHostVariant x).endIPAddress = "" ∧
      (normalizeIPHostVariant x).subnet = "") ∧
    ((normalizeIPHostVariant x).hostType = "Network" →
      (normalizeIPHostVariant x).startIPAddress = "" ∧
      (normalizeIPHostVariant x).endIPAddress = "" ∧
      (normalizeIPHostVariant x).listOfIPAddresses = "") ∧
    ((normalizeIPHostVariant x).hostType = "IPRange" →
      (normalizeIPHostVariant x).ipAddress = "" ∧
      (normalizeIPHostVariant x).subnet = "" ∧
      (normalizeIPHostVariant x).listOfIPAddresses = "") ∧
    ((normalizeIPHostVariant x).hostType = "IPList" →
      (normalizeIPHostVariant x).ipAddress = "" ∧
      (normalizeIPHostVariant x).subnet = "" ∧
      (normalizeIPHostVariant x).startIPAddress = "" ∧
      (normalizeIPHostVariant x).endIPAddress = "") ∧
    ((normalizeIPHostVariant x).hostType = "System Host" →
      (normalizeIPHostVariant x).ipAddress = "" ∧
      (normalizeIPHostVariant x).subnet = "" ∧
      (normalizeIPHostVariant x).startIPAddress = "" ∧
      (normalizeIPHostVariant x).endIPAddress = "" ∧
      (normalizeIPHostVariant x).listOfIPAddresses = "") := by
  unfold normalizeIPHostVariant
  split_ifs with h1 h2 h3 h4 h5 <;>
    refine ⟨?_, ?_, ?_, ?_, ?_⟩ <;> intro hty <;> simp_all

/-- C3: for every operation (Create/Read/Update/Delete) of every
resource kind, a parsed response whose Login status is not exactly
"Authentication Successful" makes the operation return the
authentication-failure error, regardless of any other response content
(per-kind status code, Error element, matched entities). -/
theorem c3_authentication_gate :
    (∀ r : SetResponse, r.loginStatus ≠ authSuccess →
      createIPHostResult r = .error ("authentication failed: " ++ r.loginStatus) ∧
      deleteIPHostResult r = .error ("authentication failed: " ++ r.loginStatus) ∧
      createIPHostGroupResult r = .error ("authentication failed: " ++ r.loginStatus) ∧
      deleteIPHostGroupResult r = .error ("authentication failed: " ++ r.loginStatus) ∧
      createMACHostResult r = .error ("authentication failed: " ++ r.loginStatus) ∧
      updateMACHostResult r = .error ("authentication failed: " ++ r.loginStatus) ∧
      deleteMACHostResult r = .error ("authentication failed: " ++ r.loginStatus) ∧
      createFirewallRulesBulkResult r = .error ("authentication failed: " ++ r.loginStatus) ∧
      deleteFirewallRuleResult r = .error ("authentication failed: " ++ r.loginStatus) ∧
      updateIPHostResult r = .error ("authentication failed for update: " ++ r.loginStatus) ∧
      updateIPHostGroupResult r = .error ("authentication failed for update: " ++ r.loginStatus) ∧
      updateFirewallRuleResult r = .error ("authentication failed for update: " ++ r.loginStatus)) ∧
    (∀ (dedup : List String → List String) (r : IPHostReadResponse) (name : String),
      r.loginStatus ≠ authSuccess →
      readIPHostResult dedup r name = .error ("authentication failed: " ++ r.loginStatus)) ∧
    (∀ (dedup : List String → List String) (r : IPHostGroupReadResponse) (name : String),
      r.loginStatus ≠ authSuccess →
      readIPHostGroupResult dedup r name = .error ("authentication failed: " ++ r.loginStatus)) ∧
    (∀ (r : MACHostReadResponse) (name : String), r.loginStatus ≠ authSuccess →
      readMACHostResult r name = .error ("authentication failed: " ++ r.loginStatus)) ∧
    (∀ (r : FirewallRuleReadResponse) (name : String), r.loginStatus ≠ authSuccess →
      readFirewallRuleResult r name = .error ("authentication failed: " ++ r.loginStatus)) := by
  refine ⟨fun r h => ?_, fun dedup r name h => ?_, fun dedup r name h => ?_,
    fun r name h => ?_, fun r name h => ?_⟩
  · unfold createIPHostResult deleteIPHostResult createIPHostGroupResult
      deleteIPHostGroupResult createMACHostResult updateMACHostResult deleteMACHostResult
      createFirewallRulesBulkResult deleteFirewallRuleResult updateIPHostResult
      updateIPHostGroupResult updateFirewallRuleResult
    simp [if_pos h]
  · unfold readIPHostResult
    rw [if_pos h]
  · unfold readIPHostGroupResult
    rw [if_pos h]
  · unfold readMACHostResult
    rw [if_pos h]
  · unfold readFirewallRuleResult
    rw [if_pos h]

/-- C3 witness: the authentication gate evaluated on a concrete failed
login, for a Set operation and for a Read, via c3_authentication_gate. -/
theorem c3_authentication_gate_witness :
    ("Authentication Failure" ≠ authSuccess) ∧
    createIPHostResult
        { loginStatus := "Authentication Failure", statusCode := "200",
          statusMessage := "ok", errorCode := "", errorMessage := "" } =
      .error "authentication failed: Authentication Failure" ∧
    readMACHostResult
        { loginStatus := "Authentication Failure", macHosts := [],
          statusCode := "", statusMessage := "", errorCode := "", errorMessage := "" } "m" =
      .error "authentication failed: Authentication Failure" := by
  refine ⟨by decide, ?_, ?_⟩
  · exact (c3_authentication_gate.1
      { loginStatus := "Authentication Failure", statusCode := "200",
        statusMessage := "ok", errorCode := "", errorMessage := "" } (by decide)).1
  · exact c3_authentication_gate.2.2.2.1
      { loginStatus := "Authentication Failure", macHosts := [],
        statusCode := "", statusMessage := "", errorCode := "", errorMessage := "" }
      "m" (by decide)

/-- C1 counterexample: a decoded Set response with a successful login, no
Error element and per-kind status code "500" (not "200") makes
UpdateIPHost, UpdateIPHostGroup, UpdateFirewallRule, CreateMACHost and
UpdateMACHost all return success, contradicting the claim that every Set
operation fails when the status code is not "200". -/
theorem c1_counterexample :
    updateIPHostResult
        { loginStatus := authSuccess, statusCode := "500",
          statusMessage := "operation failed", errorCode := "", errorMessage := "" } = .ok () ∧
    updateIPHostGroupResult
        { loginStatus := authSuccess, statusCode := "500",
          statusMessage := "operation failed", errorCode := "", errorMessage := "" } = .ok () ∧
    updateFirewallRuleResult
        { loginStatus := authSuccess, statusCode := "500",
          statusMessage := "operation failed", errorCode := "", errorMessage := "" } = .ok () ∧
    createMACHostResult
        { loginStatus := authSuccess, statusCode := "500",
          statusMessage := "operation failed", errorCode := "", errorMessage := "" } = .ok () ∧
    updateMACHostResult
        { loginStatus := authSuccess, statusCode := "500",
          statusMessage := "operation failed", errorCode := "", errorMessage := "" } = .ok () := by
  decide

/-- C1 amended: on a decoded response with successful login and no Error
element, the "only 200 is success" rule holds exactly for the Set paths
that check it — CreateIPHost, CreateIPHostGroup and the firewall-rule
bulk Set (Create) — which fail on any other status code; the Update
paths of IPHost, IPHostGroup and FirewallRule and both Set paths of
MACHost return success regardless of the per-kind status code. -/
theorem c1_amended_status_code_gate :
    ∀ r : SetResponse, r.loginStatus = authSuccess → r.errorCode = "" →
      r.statusCode ≠ "200" →
      (createIPHostResult r = .error ("operation failed: " ++ r.statusMessage) ∧
       createIPHostGroupResult r = .error ("operation failed: " ++ r.statusMessage) ∧
       createFirewallRulesBulkResult r = .error ("operation failed: " ++ r.statusMessage)) ∧
      (updateIPHostResult r = .ok () ∧
       updateIPHostGroupResult r = .ok () ∧
       updateFirewallRuleResult r = .ok () ∧
       createMACHostResult r = .ok () ∧
       updateMACHostResult r = .ok ()) := by
  intro r h1 h2 h3
  simp [createIPHostResult, createIPHostGroupResult, createFirewallRulesBulkResult,
    updateIPHostResult, updateIPHostGroupResult, updateFirewallRuleResult,
    createMACHostResult, updateMACHostResult, h1, h2, h3]

/-- C1 witness: the amended status-code gate evaluated on a concrete
response with login success, no error and status "500". -/
theorem c1_amended_status_code_gate_witness :
    (authSuccess = authSuccess ∧ "" = "" ∧ "500" ≠ "200") ∧
    (createIPHostResult
        { loginStatus := authSuccess, statusCode := "500",
          statusMessage := "boom", errorCode := "", errorMessage := "" } =
      .error "operation failed: boom" ∧
     updateIPHostResult
        { loginStatus := authSuccess, statusCode := "500",
          statusMessage := "boom", errorCode := "", errorMessage := "" } = .ok ()) := by
  refine ⟨⟨rfl, rfl, by decide⟩, ?_, ?_⟩
  · exact (c1_amended_status_code_gate
      { loginStatus := authSuccess, statusCode := "500",
        statusMessage := "boom", errorCode := "", errorMessage := "" }
      rfl rfl (by decide)).1.1
  · exact (c1_amended_status_code_gate
      { loginStatus := authSuccess, statusCode := "500",
        statusMessage := "boom", errorCode := "", errorMessage := "" }
      rfl rfl (by decide)).2.1

/-- C4: every Read scans the returned collection for an element whose
name equals the requested name exactly; with a successful login, no
Error element and no matching element, Read returns the not-found
outcome (ok none), not an error, for all four resource kinds. -/
theorem c4_read_not_found :
    (∀ (dedup : List String → List String) (r : IPHostReadResponse) (name : String),
      r.loginStatus = authSuccess → r.errorCode = "" →
      (∀ h ∈ r.ipHosts, h.name ≠ name) →
      readIPHostResult dedup r name = .ok none) ∧
    (∀ (dedup : List String → List String) (r : IPHostGroupReadResponse) (name : String),
      r.loginStatus = authSuccess → r.errorCode = "" →
      (∀ g ∈ r.ipHostGroups, g.name ≠ name) →
      readIPHostGroupResult dedup r name = .ok none) ∧
    (∀ (r : MACHostReadResponse) (name : String),
      r.loginStatus = authSuccess → r.errorCode = "" →
      (∀ h ∈ r.macHosts, h.name ≠ name) →
      readMACHostResult r name = .ok none) ∧
    (∀ (r : FirewallRuleReadResponse) (name : String),
      r.loginStatus = authSuccess → r.errorCode = "" →
      (∀ rl ∈ r.firewallRules, rl.name ≠ name) →
      readFirewallRuleResult r name = .ok none) := by
  refine ⟨fun dedup r name h1 h2 h3 => ?_, fun dedup r name h1 h2 h3 => ?_,
    fun r name h1 h2 h3 => ?_, fun r name h1 h2 h3 => ?_⟩
  · unfold readIPHostResult
    rw [if_neg (by simp [h1]), if_neg (by simp [h2])]
    have hf : r.ipHosts.find? (fun h => h.name = name) = none := by
      rw [List.find?_eq_none]
      intro x hx
      simpa using h3 x hx
    rw [hf]
  · unfold readIPHostGroupResult
    rw [if_neg (by simp [h1]), if_neg (by simp [h2])]
    have hf : r.ipHostGroups.find? (fun g => g.name = name) = none := by
      rw [List.find?_eq_none]
      intro x hx
      simpa using h3 x hx
    rw [hf]
  · unfold readMACHostResult
    rw [if_neg (by simp [h1]), if_neg (by simp [h2])]
    have hf : r.macHosts.find? (fun h => h.name = name) = none := by
      rw [List.find?_eq_none]
      intro x hx
      simpa using h3 x hx
    rw [hf]
  · unfold readFirewallRuleResult
    rw [if_neg (by simp [h1]), if_neg (by simp [h2])]
    have hf : r.firewallRules.find? (fun rl => rl.name = name) = none := by
      rw [List.find?_eq_none]
      intro x hx
      simpa using h3 x hx
    rw [hf]

/-- Concrete sample entities and responses used by the witnesses. -/
def sampleOtherIPHost : IPHost :=
  { name := "other", description := "", ipFamily := "IPv4", hostType := "IP"
    ipAddress := "10.0.0.5", subnet := "", startIPAddress := "", endIPAddress := ""
    transactionID := "", listOfIPAddresses := "", hostGroupList := none }

/-- Read response carrying only a non-matching IPHost element. -/
def ipHostReadRspOther : IPHostReadResponse :=
  { loginStatus := "Authentication Successful", ipHosts := [sampleOtherIPHost]
    statusCode := "", statusMessage := "", errorCode := "", errorMessage := "" }

/-- A MACHost response element with a non-matching name. -/
def sampleOtherMACEntry : MACHostEntry :=
  { name := "m-other", description := "", type := "MACAddress"
    macAddress := "AA:BB:CC:DD:EE:FF", macList := [], transactionID := "" }

/-- Read response carrying only a non-matching MACHost element. -/
def macReadRspOther : MACHostReadResponse :=
  { loginStatus := "Authentication Successful", macHosts := [sampleOtherMACEntry]
    statusCode := "", statusMessage := "", errorCode := "", errorMessage := "" }

/-- C4 witness: a concrete response carrying one non-matching element
(successful login, no error) yields the not-found outcome for the IPHost
and MACHost reads, via c4_read_not_found. -/
theorem c4_read_not_found_witness :
    ("Authentication Successful" = authSuccess ∧
      (∀ h ∈ ipHostReadRspOther.ipHosts, h.name ≠ "web1") ∧
      (∀ h ∈ macReadRspOther.macHosts, h.name ≠ "m1")) ∧
    readIPHostResult dedupKeepFirst ipHostReadRspOther "web1" = .ok none ∧
    readMACHostResult macReadRspOther "m1" = .ok none := by
  refine ⟨⟨rfl, by decide, by decide⟩, ?_, ?_⟩
  · exact c4_read_not_found.1 dedupKeepFirst ipHostReadRspOther "web1" rfl rfl (by decide)
  · exact c4_read_not_found.2.2.1 macReadRspOther "m1" rfl rfl (by decide)

/-- C2: every IPHost entity returned by a successful ReadIPHost has all
per-variant fields not belonging to its active HostType emptied: an IP
host keeps only IPAddress, a Network host only IPAddress and Subnet, an
IPRange host only StartIPAddress and EndIPAddress, an IPList host only
ListOfIPAddresses, and a system host (wire literal "System Host") none
of the five. -/
theorem c2_variant_field_suppression :
    ∀ (dedup : List String → List String) (r : IPHostReadResponse) (name : String) (e : IPHost),
      readIPHostResult dedup r name = .ok (some e) →
      (e.hostType = "IP" →
        e.listOfIPAddresses = "" ∧ e.startIPAddress = "" ∧ e.endIPAddress = "" ∧ e.subnet = "") ∧
      (e.hostType = "Network" →
        e.startIPAddress = "" ∧ e.endIPAddress = "" ∧ e.listOfIPAddresses = "") ∧
      (e.hostType = "IPRange" →
        e.ipAddress = "" ∧ e.subnet = "" ∧ e.listOfIPAddresses = "") ∧
      (e.hostType = "IPList" →
        e.ipAddress = "" ∧ e.subnet = "" ∧ e.startIPAddress = "" ∧ e.endIPAddress = "") ∧
      (e.hostType = "System Host" →
        e.ipAddress = "" ∧ e.subnet = "" ∧ e.startIPAddress = "" ∧ e.endIPAddress = "" ∧
        e.listOfIPAddresses = "") := by
  intro dedup r name e hok
  unfold readIPHostResult at hok
  by_cases h1 : r.loginStatus ≠ authSuccess
  · rw [if_pos h1] at hok
    exact absurd hok (by simp)
  rw [if_neg h1] at hok
  by_cases h2 : r.errorCode ≠ ""
  · rw [if_pos h2] at hok
    exact absurd hok (by simp)
  rw [if_neg h2] at hok
  cases hf : r.ipHosts.find? (fun h => h.name = name) with
  | none =>
      rw [hf] at hok
      exact absurd hok (by simp)
  | some h0 =>
      rw [hf] at hok
      simp only [Except.ok.injEq, Option.some.injEq] at hok
      subst hok
      exact normalizeIPHostVariant_fields _

/-- The IPRange entity as it appears on the wire in the C2 witness, with
stale IPAddress, Subnet and ListOfIPAddresses values and a duplicated
host-group reference. -/
def rangeWireHost : IPHost :=
  { name := "web1", description := "", ipFamily := "IPv4", hostType := "IPRange"
    ipAddress := "1.2.3.4", subnet := "255.0.0.0", startIPAddress := "10.0.0.1"
    endIPAddress := "10.0.0.9", transactionID := "", listOfIPAddresses := "x,y"
    hostGroupList := some ["g2", "g1", "g2"] }

/-- The C2 witness read response. -/
def rangeReadRsp : IPHostReadResponse :=
  { loginStatus := "Authentication Successful", ipHosts := [rangeWireHost]
    statusCode := "", statusMessage := "", errorCode := "", errorMessage := "" }

/-- The entity the C2 witness read returns after normalization. -/
def rangeNormalizedHost : IPHost :=
  { name := "web1", description := "", ipFamily := "IPv4", hostType := "IPRange"
    ipAddress := "", subnet := "", startIPAddress := "10.0.0.1"
    endIPAddress := "10.0.0.9", transactionID := "", listOfIPAddresses := ""
    hostGroupList := some ["g2", "g1"] }

/-- C2 witness: the concrete IPRange read returns the normalized entity
whose IPAddress, Subnet and ListOfIPAddresses are empty, via
c2_variant_field_suppression. -/
theorem c2_variant_field_suppression_witness :
    readIPHostResult dedupKeepFirst rangeReadRsp "web1" = .ok (some rangeNormalizedHost) ∧
    (rangeNormalizedHost.ipAddress = "" ∧ rangeNormalizedHost.subnet = "" ∧
      rangeNormalizedHost.listOfIPAddresses = "") := by
  have h : readIPHostResult dedupKeepFirst rangeReadRsp "web1" =
      .ok (some rangeNormalizedHost) := by decide
  exact ⟨h, (c2_variant_field_suppression dedupKeepFirst rangeReadRsp "web1"
    rangeNormalizedHost h).2.2.1 rfl⟩

/-- C5: the claim is right and the code is wrong.  isValidMACAddress
rejects the short value "00:16:76:49:33" and macHostResource.Create
fails with the validation diagnostic before any network call, but
macHostResource.Update never invokes the validator: the same malformed
plan passes the Update gate and the network request is issued carrying
the malformed address. -/
theorem c5_update_skips_mac_validation :
    isValidMACAddress "00:16:76:49:33" = false ∧
    macHostCreateGate
        { name := "host1", description := none, type := "MACAddress"
          macAddress := some "00:16:76:49:33", listOfMACAddresses := none } =
      .error "MAC address 00:16:76:49:33 is not in a valid format. Use format XX:XX:XX:XX:XX:XX" ∧
    macHostUpdateGate
        { name := "host1", description := none, type := "MACAddress"
          macAddress := some "00:16:76:49:33", listOfMACAddresses := none } =
      .ok { name := "host1", description := "", type := "MACAddress"
            macAddress := "00:16:76:49:33", listOfMACAddresses := [], transactionID := "" } := by
  decide

/-- The MACLIST wire element of the C6 scenario: the remote response
lists one address twice. -/
def macListWireEntry : MACHostEntry :=
  { name := "maclist1", description := "", type := "MACLIST", macAddress := ""
    macList := ["AA:BB:CC:DD:EE:FF", "AA:BB:CC:DD:EE:FF", "11:22:33:44:55:66"]
    transactionID := "" }

/-- The C6 read response. -/
def macListReadRsp : MACHostReadResponse :=
  { loginStatus := "Authentication Successful", macHosts := [macListWireEntry]
    statusCode := "", statusMessage := "", errorCode := "", errorMessage := "" }

/-- The entity the machost client returns for the C6 scenario (the
duplicate survives: ReadMACHost does not deduplicate). -/
def macListClientHost : MACHost :=
  { name := "maclist1", description := "", type := "MACLIST", macAddress := ""
    listOfMACAddresses := ["AA:BB:CC:DD:EE:FF", "AA:BB:CC:DD:EE:FF", "11:22:33:44:55:66"]
    transactionID := "" }

/-- C6 counterexample: on the part_002 revision of machost Read, the
remote MACLIST [AA, AA, 11] reaches the host state as the 3-element join
with the duplicate intact, not the claimed 2-element deduplication. -/
theorem c6_counterexample :
    readMACHostResult macListReadRsp "maclist1" = .ok (some macListClientHost) ∧
    macHostReadStateMACList2 macListClientHost =
      some "AA:BB:CC:DD:EE:FF,AA:BB:CC:DD:EE:FF,11:22:33:44:55:66" ∧
    (some "AA:BB:CC:DD:EE:FF,AA:BB:CC:DD:EE:FF,11:22:33:44:55:66" ≠
      (some "AA:BB:CC:DD:EE:FF,11:22:33:44:55:66" : Option String)) := by
  decide

/-- C6 amended: the first-seen-order deduplication of the MACLIST state
holds only on the part_001 revision of machost Read, whose normalized
list is duplicate-free, has exactly the members of the wire list and
preserves their first-seen order (a sublist of the wire list); on that
revision the [AA, AA, 11] response indeed normalizes to the 2-element
join.  The part_002 revision passes the wire list through unchanged
(see the counterexample). -/
theorem c6_amended_dedup_in_part001_only :
    (∀ (prior : Option String) (m : MACHost),
      asciiToUpper m.type = "MACLIST" → m.listOfMACAddresses ≠ [] →
      ∃ d, macHostReadStateMACList1 prior m = some (String.intercalate "," d) ∧
        d.Nodup ∧ (∀ a, a ∈ d ↔ a ∈ m.listOfMACAddresses) ∧
        List.Sublist d m.listOfMACAddresses) ∧
    macHostReadStateMACList1 none macListClientHost =
      some "AA:BB:CC:DD:EE:FF,11:22:33:44:55:66" := by
  constructor
  · intro prior m hty hne
    refine ⟨dedupKeepFirst m.listOfMACAddresses, ?_, nodup_dedupFirstAux [] _,
      fun a => mem_dedupKeepFirst, sublist_dedupFirstAux [] _⟩
    unfold macHostReadStateMACList1
    rw [if_neg (by rw [hty]; decide), if_pos hty,
      if_pos (show ¬ m.listOfMACAddresses.isEmpty = true by simp [hne])]
  · decide

/-- C6 witness: the part_001 dedup evaluated on the concrete [AA, AA, 11]
client entity, via c6_amended_dedup_in_part001_only. -/
theorem c6_amended_dedup_in_part001_only_witness :
    (asciiToUpper macListClientHost.type = "MACLIST" ∧
      macListClientHost.listOfMACAddresses ≠ []) ∧
    (∃ d, macHostReadStateMACList1 none macListClientHost =
        some (String.intercalate "," d) ∧
      d.Nodup ∧ (∀ a, a ∈ d ↔ a ∈ macListClientHost.listOfMACAddresses) ∧
      List.Sublist d macListClientHost.listOfMACAddresses) :=
  ⟨⟨by decide, by decide⟩,
    c6_amended_dedup_in_part001_only.1 none macListClientHost (by decide) (by decide)⟩

/-- C7: every Update serializes its entity with the transaction id
cleared — the struct-marshaled kinds (IPHost, IPHostGroup, FirewallRule)
assign it empty before marshaling, and the MACHost update template never
references it, so its payload is independent of the input value. -/
theorem c7_update_clears_transaction_id :
    ∀ (h : IPHost) (g : IPHostGroup) (rl : FirewallRule) (m : MACHost) (u p : String),
      h.transactionID ≠ "" → g.transactionID ≠ "" → rl.transactionID ≠ "" →
      m.transactionID ≠ "" →
      (updateIPHostWireHost h).transactionID = "" ∧
      (updateIPHostGroupWireGroup g).transactionID = "" ∧
      (updateFirewallRuleWireRule rl).transactionID = "" ∧
      updateMACHostRequestBody u p m =
        updateMACHostRequestBody u p { m with transactionID := "" } := by
  intro h g rl m u p _ _ _ _
  exact ⟨rfl, rfl, rfl, rfl⟩

/-- Entities carrying a stale transaction id, for the C7 witness. -/
def txIPHost : IPHost :=
  { sampleOtherIPHost with transactionID := "ABC123" }

/-- IPHostGroup with a stale transaction id. -/
def txGroup : IPHostGroup :=
  { name := "g1", description := "", ipFamily := "IPv4", hostList := none
    transactionID := "ABC123" }

/-- FirewallRule with a stale transaction id. -/
def txRule : FirewallRule :=
  { name := "r1", description := "", ipFamily := "IPv4", status := "Enable"
    position := "Top", policyType := "Network", after := none, before := none
    networkPolicy := none, transactionID := "ABC123" }

/-- MACHost with a stale transaction id. -/
def txMACHost : MACHost :=
  { name := "m1", description := "", type := "MACAddress"
    macAddress := "AA:BB:CC:DD:EE:FF", listOfMACAddresses := []
    transactionID := "ABC123" }

/-- C7 witness: concrete updates of entities carrying transaction id
"ABC123" serialize it empty (or build an identical template payload),
via c7_update_clears_transaction_id. -/
theorem c7_update_clears_transaction_id_witness :
    (txIPHost.transactionID ≠ "" ∧ txGroup.transactionID ≠ "" ∧
      txRule.transactionID ≠ "" ∧ txMACHost.transactionID ≠ "") ∧
    ((updateIPHostWireHost txIPHost).transactionID = "" ∧
      (updateIPHostGroupWireGroup txGroup).transactionID = "" ∧
      (updateFirewallRuleWireRule txRule).transactionID = "" ∧
      updateMACHostRequestBody "u" "p" txMACHost =
        updateMACHostRequestBody "u" "p" { txMACHost with transactionID := "" }) := by
  refine ⟨⟨by decide, by decide, by decide, by decide⟩, ?_⟩
  exact c7_update_clears_transaction_id txIPHost txGroup txRule txMACHost "u" "p"
    (by decide) (by decide) (by decide) (by decide)

/-- The host list exposed by ipHostGroupResource.Read is always sorted
(helper for the C8 determinism theorem). -/
theorem sorted_ipHostGroupStateHosts (g : IPHostGroup) :
    (ipHostGroupStateHosts g).Sorted (· ≤ ·) := by
  unfold ipHostGroupStateHosts
  cases g.hostList with
  | none => simp
  | some hs =>
      by_cases he : hs.isEmpty = true
      · simp [he]
      · simp only [he, if_false]
        exact List.sorted_insertionSort _ _

/-- C8: the host-name list exposed by an IPHostGroup Read is the
client-side deduplication followed by an alphabetical sort, hence a
deterministic function of the set of host names in the remote response:
any two responses with the same member set — in any order, with any
multiplicity, deduplicated in any admissible order — produce the same
sorted state list. -/
theorem c8_hostgroup_read_deterministic :
    ∀ (hs₁ hs₂ d₁ d₂ : List String) (g₁ g₂ : IPHostGroup),
      (∀ a ∈ hs₁, a ∈ hs₂) → (∀ a ∈ hs₂, a ∈ hs₁) →
      IsDedupOf d₁ hs₁ → IsDedupOf d₂ hs₂ →
      g₁.hostList = some d₁ → g₂.hostList = some d₂ →
      ipHostGroupStateHosts g₁ = ipHostGroupStateHosts g₂ ∧
      (ipHostGroupStateHosts g₁).Sorted (· ≤ ·) := by
  intro hs₁ hs₂ d₁ d₂ g₁ g₂ h12 h21 hd₁ hd₂ hg₁ hg₂
  obtain ⟨hn₁, hin₁, hout₁⟩ := hd₁
  obtain ⟨hn₂, hin₂, hout₂⟩ := hd₂
  have hperm : d₁.Perm d₂ := (List.perm_ext_iff_of_nodup hn₁ hn₂).mpr
    (fun a => ⟨fun ha => hin₂ a (h12 a (hout₁ a ha)),
               fun ha => hin₁ a (h21 a (hout₂ a ha))⟩)
  refine ⟨?_, sorted_ipHostGroupStateHosts g₁⟩
  unfold ipHostGroupStateHosts
  rw [hg₁, hg₂]
  by_cases he : d₁.isEmpty = true
  · have hd1 : d₁ = [] := by simpa using he
    have hd2 : d₂ = [] := List.perm_nil.mp (by rw [← hd1]; exact hperm.symm)
    simp [hd1, hd2]
  · have he₂ : ¬ d₂.isEmpty = true := by
      intro h2
      have hd2 : d₂ = [] := by simpa using h2
      apply he
      have hd1 : d₁ = [] := List.perm_nil.mp (by rw [← hd2]; exact hperm)
      simp [hd1]
    dsimp only
    rw [if_neg he, if_neg he₂]
    exact List.eq_of_perm_of_sorted
      (((List.perm_insertionSort _ d₁).trans hperm).trans
        (List.perm_insertionSort _ d₂).symm)
      (List.sorted_insertionSort _ _) (List.sorted_insertionSort _ _)

/-- Group holding one admissible dedup of the wire list [b, a, b]. -/
def groupDedupBA : IPHostGroup :=
  { name := "g1", description := "", ipFamily := "IPv4", hostList := some ["b", "a"]
    transactionID := "" }

/-- Group holding the dedup of the same set received as [a, b]. -/
def groupDedupAB : IPHostGroup :=
  { name := "g1", description := "", ipFamily := "IPv4", hostList := some ["a", "b"]
    transactionID := "" }

/-- C8 witness: two responses listing the same host set as [b, a, b] and
[a, b], deduplicated in different orders, expose the same sorted state
list, via c8_hostgroup_read_deterministic. -/
theorem c8_hostgroup_read_deterministic_witness :
    ((∀ a ∈ ["b", "a", "b"], a ∈ ["a", "b"]) ∧ (∀ a ∈ ["a", "b"], a ∈ ["b", "a", "b"]) ∧
      IsDedupOf ["b", "a"] ["b", "a", "b"] ∧ IsDedupOf ["a", "b"] ["a", "b"]) ∧
    ipHostGroupStateHosts groupDedupBA = ipHostGroupStateHosts groupDedupAB := by
  refine ⟨⟨by decide, by decide, by decide, by decide⟩, ?_⟩
  exact (c8_hostgroup_read_deterministic ["b", "a", "b"] ["a", "b"] ["b", "a"] ["a", "b"]
    groupDedupBA groupDedupAB (by decide) (by decide) (by decide) (by decide) rfl rfl).1

/-- MACLIST response element listing [AA, 11], for the C9 counterexample. -/
def macOrderEntry1 : MACHostEntry :=
  { name := "m1", description := "", type := "MACLIST", macAddress := ""
    macList := ["AA:BB:CC:DD:EE:FF", "11:22:33:44:55:66"], transactionID := "" }

/-- The same entity with its member set listed in the other order. -/
def macOrderEntry2 : MACHostEntry :=
  { name := "m1", description := "", type := "MACLIST", macAddress := ""
    macList := ["11:22:33:44:55:66", "AA:BB:CC:DD:EE:FF"], transactionID := "" }

/-- First read response of the C9 scenario. -/
def macOrderRsp1 : MACHostReadResponse :=
  { loginStatus := "Authentication Successful", macHosts := [macOrderEntry1]
    statusCode := "", statusMessage := "", errorCode := "", errorMessage := "" }

/-- Second read response of the C9 scenario (same entity, reordered). -/
def macOrderRsp2 : MACHostReadResponse :=
  { loginStatus := "Authentication Successful", macHosts := [macOrderEntry2]
    statusCode := "", statusMessage := "", errorCode := "", errorMessage := "" }

/-- Client entity from the first C9 read. -/
def macOrderHost1 : MACHost :=
  { name := "m1", description := "", type := "MACLIST", macAddress := ""
    listOfMACAddresses := ["AA:BB:CC:DD:EE:FF", "11:22:33:44:55:66"], transactionID := "" }

/-- Client entity from the second C9 read. -/
def macOrderHost2 : MACHost :=
  { name := "m1", description := "", type := "MACLIST", macAddress := ""
    listOfMACAddresses := ["11:22:33:44:55:66", "AA:BB:CC:DD:EE:FF"], transactionID := "" }

/-- C9 counterexample: reading the same unchanged MACLIST entity twice,
with the remote system listing the same member set in two different
orders, produces different normalized state values on both machost
resource revisions — Read is not normalization-equal across element
order. -/
theorem c9_counterexample :
    readMACHostResult macOrderRsp1 "m1" = .ok (some macOrderHost1) ∧
    readMACHostResult macOrderRsp2 "m1" = .ok (some macOrderHost2) ∧
    (∀ a ∈ macOrderHost1.listOfMACAddresses, a ∈ macOrderHost2.listOfMACAddresses) ∧
    (∀ a ∈ macOrderHost2.listOfMACAddresses, a ∈ macOrderHost1.listOfMACAddresses) ∧
    macHostReadStateMACList1 none macOrderHost1 ≠ macHostReadStateMACList1 none macOrderHost2 ∧
    macHostReadStateMACList2 macOrderHost1 ≠ macHostReadStateMACList2 macOrderHost2 := by
  decide

/-- C9 amended: Read is idempotent at the set level only.  For IPHost,
two reads of the same entity whose host-group sets agree produce
normalized entities that agree on every field except the host-group
list, and those lists agree as sets; the MACLIST dedup of the part_001
machost resource likewise preserves set equality.  Representation-level
equality of set-valued fields holds only where a sort is applied
(IPHostGroup; see C8), not for the MACLIST join or the host-group list
order. -/
theorem c9_amended_set_level_idempotence :
    (∀ (h : IPHost) (gs₁ gs₂ d₁ d₂ : List String),
      (∀ a ∈ gs₁, a ∈ gs₂) → (∀ a ∈ gs₂, a ∈ gs₁) →
      IsDedupOf d₁ gs₁ → IsDedupOf d₂ gs₂ →
      ({ normalizeIPHostVariant { h with hostGroupList := some d₁ } with
          hostGroupList := none } =
        { normalizeIPHostVariant { h with hostGroupList := some d₂ } with
          hostGroupList := none }) ∧
      (∀ a, a ∈ d₁ ↔ a ∈ d₂)) ∧
    (∀ l₁ l₂ : List String,
      (∀ a ∈ l₁, a ∈ l₂) → (∀ a ∈ l₂, a ∈ l₁) →
      ∀ a, a ∈ dedupKeepFirst l₁ ↔ a ∈ dedupKeepFirst l₂) := by
  constructor
  · intro h gs₁ gs₂ d₁ d₂ h12 h21 hd₁ hd₂
    obtain ⟨hn₁, hin₁, hout₁⟩ := hd₁
    obtain ⟨hn₂, hin₂, hout₂⟩ := hd₂
    constructor
    · unfold normalizeIPHostVariant
      split_ifs <;> rfl
    · intro a
      exact ⟨fun ha => hin₂ a (h12 a (hout₁ a ha)),
             fun ha => hin₁ a (h21 a (hout₂ a ha))⟩
  · intro l₁ l₂ h12 h21 a
    rw [mem_dedupKeepFirst, mem_dedupKeepFirst]
    exact ⟨fun ha => h12 a ha, fun ha => h21 a ha⟩

/-- C9 witness: the amended set-level idempotence evaluated on the
concrete reordered host-group and MACLIST lists, via
c9_amended_set_level_idempotence. -/
theorem c9_amended_set_level_idempotence_witness :
    ((∀ a ∈ ["g2", "g1"], a ∈ ["g1", "g2"]) ∧ (∀ a ∈ ["g1", "g2"], a ∈ ["g2", "g1"]) ∧
      IsDedupOf ["g2", "g1"] ["g2", "g1"] ∧ IsDedupOf ["g1", "g2"] ["g1", "g2"]) ∧
    ({ normalizeIPHostVariant { rangeWireHost with hostGroupList := some ["g2", "g1"] } with
        hostGroupList := none } =
      { normalizeIPHostVariant { rangeWireHost with hostGroupList := some ["g1", "g2"] } with
        hostGroupList := none }) ∧
    (∀ a, a ∈ ["g2", "g1"] ↔ a ∈ ["g1", "g2"]) := by
  refine ⟨⟨by decide, by decide, by decide, by decide⟩, ?_⟩
  exact (c9_amended_set_level_idempotence.1 rangeWireHost ["g2", "g1"] ["g1", "g2"]
    ["g2", "g1"] ["g1", "g2"] (by decide) (by decide) (by decide) (by decide))

/-- The well-formed MACHost of the C10 control case. -/
def macHostClean : MACHost :=
  { name := "m1", description := "d", type := "MACAddress"
    macAddress := "AA:BB:CC:DD:EE:FF", listOfMACAddresses := [], transactionID := "" }

/-- The MACHost whose name carries an XML metacharacter. -/
def macHostBadName : MACHost :=
  { macHostClean with name := "bad<name" }

set_option maxRecDepth 40000 in
/-- C10: the string-template request builders interpolate their inputs
with no escaping: with the name "bad<name", both the IPHost Get body and
the MACHost Create body contain the unescaped bytes verbatim and fail
the well-formedness scan, while the same templates with clean inputs
pass it. -/
theorem c10_template_injection :
    strContainsSub "<Name>bad<name</Name>" (readIPHostRequestBody "admin" "pw" "bad<name") = true ∧
    xmlWellFormed (readIPHostRequestBody "admin" "pw" "bad<name") = false ∧
    xmlWellFormed (readIPHostRequestBody "admin" "pw" "web1") = true ∧
    strContainsSub "<Name>bad<name</Name>"
      (createMACHostRequestBody "admin" "pw" macHostBadName) = true ∧
    xmlWellFormed (createMACHostRequestBody "admin" "pw" macHostBadName) = false ∧
    xmlWellFormed (createMACHostRequestBody "admin" "pw" macHostClean) = true := by
  decide

end Sophos
